import Mathlib

/-!
Shallow embedding of the crop-disease-detection demo app (src/project3.py).

Randomness is modelled by explicit oracle inputs:
- a call to random.choice on a list l consumes a draw j : Nat and returns
  l[j % l.length] (IndexError, i.e. none, on an empty list);
- random.randint 0 7 consumes a draw j : Nat and returns j % 8;
- random.uniform a b consumes a draw u : Rat standing for random() in [0, 1)
  and returns a + (b - a) * u; Python floats are modelled as exact rationals.

Image decoding (PIL Image.open / convert, numpy mean) is an external
collaborator: it is modelled by its result, either the triple of mean channel
intensities or a decode failure (the exception path of the try in
analyze_image).
-/

namespace CropDisease

/-- The allowed upload extensions (ALLOWED_EXTENSIONS in project3.py). -/
def ALLOWED_EXTENSIONS : List String := ["png", "jpg", "jpeg", "gif", "bmp"]

/-- The DISEASE_CLASSES dict of project3.py, in insertion order. -/
def DISEASE_CLASSES : List (Nat × String) :=
  [(0, "Healthy"), (1, "Early Blight"), (2, "Late Blight"), (3, "Powdery Mildew"),
   (4, "Leaf Spot"), (5, "Rust"), (6, "Mosaic Virus"), (7, "Bacterial Spot")]

/-- DISEASE_CLASSES.keys() in insertion order. -/
def classIds : List Nat := DISEASE_CLASSES.map Prod.fst

/-- Dict subscript DISEASE_CLASSES[n]: none models a KeyError. -/
def lookupClass (n : Nat) : Option String := DISEASE_CLASSES.lookup n

/-- The CROP_TYPES list of project3.py. -/
def CROP_TYPES : List String := ["Tomato", "Potato", "Corn", "Wheat", "Rice", "Soybean"]

/-- Python str.lower, per character (ASCII-faithful). -/
def lowerStr (s : String) : String := String.mk (s.data.map Char.toLower)

/-- filename.rsplit(".", 1)[1] when "." occurs in filename: the suffix after
the last dot. -/
def extAfterLastDot (s : String) : String :=
  String.mk ((s.data.reverse.takeWhile (fun c => c ≠ '.')).reverse)

/-- allowed_file of project3.py:
"." in filename and filename.rsplit(".", 1)[1].lower() in ALLOWED_EXTENSIONS. -/
def allowed_file (filename : String) : Bool :=
  filename.data.contains '.' && ALLOWED_EXTENSIONS.contains (lowerStr (extAfterLastDot filename))

/-- random.uniform a b with random() draw u in [0, 1): a + (b - a) * u. -/
def uniform (a b u : ℚ) : ℚ := a + (b - a) * u

/-- random.choice l with index draw j: l[j % len l]; none models the
IndexError raised on an empty sequence. -/
def randChoice (l : List Nat) (j : Nat) : Option Nat :=
  if l.isEmpty then none else some (l.getD (j % l.length) 0)

/-- The outcome of the image-decoding prefix of analyze_image: either the mean
channel intensities of the decoded RGB image, or any decode exception. -/
inductive DecodeResult where
  | ok (red green blue : ℚ) : DecodeResult
  | err : DecodeResult

/-- analyze_image of project3.py. iOther is the draw consumed by
random.choice in the else branch; iFail the draw consumed by
random.randint(0, len(DISEASE_CLASSES) - 1) in the except handler, which also
catches an IndexError from random.choice. -/
def analyze_image (dec : DecodeResult) (iOther iFail : Nat) : Nat :=
  match dec with
  | .err => iFail % 8
  | .ok red green blue =>
    if 150 < green ∧ red < 100 then 0
    else if 150 < red ∧ green < 100 then 1
    else if blue < 50 ∧ 180 < red then 2
    else
      match randChoice [0, 3, 4, 5, 6, 7] iOther with
      | some c => c
      | none => iFail % 8

/-- One entry of the top_predictions list built by predict_disease. -/
structure Prediction where
  disease : String
  confidence : ℚ
  class_id : Nat
deriving DecidableEq, Repr

/-- The dict returned by predict_disease: on success the primary prediction
and the list of alternatives (all_predictions = primary :: alternatives), on
an uncaught exception the error dict of the except handler. -/
inductive PredictResult where
  | ok (primary_prediction : Prediction) (alternatives : List Prediction) : PredictResult
  | failure (errMsg : String) : PredictResult
deriving DecidableEq, Repr

/-- The success field of the returned dict. -/
def PredictResult.success : PredictResult → Bool
  | .ok _ _ => true
  | .failure _ => false

/-- The all_predictions field: primary first, then the alternatives. -/
def PredictResult.all_predictions : PredictResult → List Prediction
  | .ok p alts => p :: alts
  | .failure _ => []

/-- Sequencing of fallible steps in a loop body: none as soon as one
iteration raises. -/
def mapOpt {α β : Type} (f : α → Option β) : List α → Option (List β)
  | [] => some []
  | a :: as =>
    match f a, mapOpt f as with
    | some b, some bs => some (b :: bs)
    | _, _ => none

/-- One iteration of the alternatives loop of predict_disease: pick
alt_class = random.choice(other_classes) (draw (draws i).1), look its name up
in DISEASE_CLASSES, draw its confidence from uniform(0.1, confidence - 0.2)
(draw (draws i).2). -/
def altAt (other_classes : List Nat) (confidence : ℚ) (draws : Nat → Nat × ℚ) (i : Nat) :
    Option Prediction :=
  match randChoice other_classes (draws i).1 with
  | none => none
  | some alt_class =>
    match lookupClass alt_class with
    | none => none
    | some name => some ⟨name, uniform (1/10) (confidence - 2/10) (draws i).2, alt_class⟩

/-- predict_disease of project3.py. u0 is the random() draw behind
random.uniform(0.7, 0.95); draws i the pair of draws consumed by loop
iteration i. The time.sleep call has no observable effect and is omitted;
a KeyError or IndexError in the body lands in the except handler
(PredictResult.failure). -/
def predict_disease (dec : DecodeResult) (iOther iFail : Nat) (u0 : ℚ)
    (draws : Nat → Nat × ℚ) : PredictResult :=
  let predicted_class := analyze_image dec iOther iFail
  let confidence := uniform (7/10) (19/20) u0
  match lookupClass predicted_class with
  | none => .failure "KeyError"
  | some primaryName =>
    let other_classes := classIds.filter (fun x => x ≠ predicted_class)
    match mapOpt (altAt other_classes confidence draws) (List.range (min 2 other_classes.length)) with
    | none => .failure "error"
    | some alts => .ok ⟨primaryName, confidence, predicted_class⟩ alts

/-- The stored filename f-string of upload_file:
timestamp_filename with timestamp = datetime.now().strftime of %Y%m%d_%H%M%S.
The strftime format renders the wall-clock second and is injective in it
(distinct seconds give distinct 15-character strings), so a stored name is
modelled as the pair (wall-clock second, sanitized name); t is the upload
time in seconds, and its floor is the rendered second. -/
def unique_filename (t : ℚ) (sanitized : String) : ℤ × String := (⌊t⌋, sanitized)

/-- HTTP method of the request reaching upload_file. -/
inductive Method where
  | GET : Method
  | POST : Method
deriving DecidableEq

/-- The parts of the request that upload_file inspects. -/
structure UploadRequest where
  method : Method
  hasFilePart : Bool
  filename : String

/-- The response of upload_file: a flash-message redirect back to the form,
the rendered result page, or the rendered empty upload form (GET). -/
inductive UploadResponse where
  | redirectWithError (msg : String) : UploadResponse
  | resultPage (primary : Prediction) (alts : List Prediction) (stored : ℤ × String) : UploadResponse
  | uploadForm : UploadResponse

/-- The response together with the side effects of the handler: whether
file.save was reached (a file written) and whether predict_disease was
invoked. -/
structure HandlerOutcome where
  response : UploadResponse
  fileSaved : Bool
  predictionAttempted : Bool

/-- upload_file of project3.py. saveFails models an exception from
os.makedirs or file.save (the try of the storing block); now is the wall
clock at datetime.now(); the remaining arguments are the decode outcome and
the random draws consumed downstream by predict_disease. secure_filename is
an external collaborator and the request's filename stands for its
sanitized form in the stored name. -/
def upload_file (req : UploadRequest) (saveFails : Bool) (now : ℚ) (dec : DecodeResult)
    (iOther iFail : Nat) (u0 : ℚ) (draws : Nat → Nat × ℚ) : HandlerOutcome :=
  match req.method with
  | .GET => ⟨.uploadForm, false, false⟩
  | .POST =>
    if req.hasFilePart = false then
      ⟨.redirectWithError "Please select a file first", false, false⟩
    else if req.filename = "" then
      ⟨.redirectWithError "Please select a file", false, false⟩
    else if allowed_file req.filename then
      if saveFails then
        ⟨.redirectWithError "Error processing file", false, false⟩
      else
        match predict_disease dec iOther iFail u0 draws with
        | .ok p alts =>
          ⟨.resultPage p alts (unique_filename now req.filename), true, true⟩
        | .failure _ =>
          ⟨.redirectWithError "Analysis failed. Please try another image.", true, true⟩
    else
      ⟨.redirectWithError "Invalid file type. Please use JPG, PNG, or JPEG images.", false, false⟩

/-- A successful random.choice returns an element of the sequence. -/
theorem randChoice_eq_some_mem (l : List Nat) (j c : Nat) (h : randChoice l j = some c) :
    c ∈ l := by
  unfold randChoice at h
  by_cases he : l.isEmpty
  · rw [if_pos he] at h; exact absurd h (by simp)
  · rw [if_neg he] at h
    have hne : l ≠ [] := by
      intro hnil; exact he (by simp [hnil])
    have hlt : j % l.length < l.length := Nat.mod_lt _ (List.length_pos.mpr hne)
    have := List.getD_eq_getElem l 0 hlt
    injection h with h
    rw [← h, this]
    exact List.getElem_mem hlt

/-- random.choice on a non-empty sequence succeeds. -/
theorem randChoice_ne_nil (l : List Nat) (j : Nat) (h : l ≠ []) :
    ∃ c, randChoice l j = some c ∧ c ∈ l := by
  have he : l.isEmpty = false := by
    cases l with
    | nil => exact absurd rfl h
    | cons a as => rfl
  refine ⟨l.getD (j % l.length) 0, ?_, ?_⟩
  · unfold randChoice; rw [he]; rfl
  · have hlt : j % l.length < l.length := Nat.mod_lt _ (List.length_pos.mpr h)
    rw [List.getD_eq_getElem l 0 hlt]
    exact List.getElem_mem hlt

/-- Every class id the analyzer can return is in range: the threshold rules
return 0, 1, 2, the else branch an element of [0,3,4,5,6,7] and the except
handler randint(0,7). -/
theorem analyze_image_lt (dec : DecodeResult) (iOther iFail : Nat) :
    analyze_image dec iOther iFail < 8 := by
  cases dec with
  | err => exact Nat.mod_lt _ (by norm_num)
  | ok red green blue =>
    simp only [analyze_image]
    split
    · norm_num
    · split
      · norm_num
      · split
        · norm_num
        · cases hc : randChoice [0, 3, 4, 5, 6, 7] iOther with
          | none => exact Nat.mod_lt _ (by norm_num)
          | some c =>
            have hm : c ∈ [0, 3, 4, 5, 6, 7] := randChoice_eq_some_mem _ _ _ hc
            have hx : ∀ x ∈ ([0, 3, 4, 5, 6, 7] : List Nat), x < 8 := by decide
            exact hx c hm

/-- Every id below 8 is a key of DISEASE_CLASSES. -/
theorem lookupClass_isSome (n : Nat) (h : n < 8) : (lookupClass n).isSome = true := by
  revert h
  revert n
  decide

/-- Removing one id from the key list leaves it non-empty. -/
theorem other_classes_ne_nil (n : Nat) (h : n < 8) :
    classIds.filter (fun x => x ≠ n) ≠ [] := by
  revert h
  revert n
  decide

/-- Every key of DISEASE_CLASSES is below 8. -/
theorem classIds_lt (x : Nat) (h : x ∈ classIds) : x < 8 := by
  revert h
  revert x
  decide

/-- A loop whose every iteration succeeds succeeds as a whole, produces one
result per iteration, and every result comes from some iteration. -/
theorem mapOpt_isSome {α β : Type} (f : α → Option β) (l : List α)
    (h : ∀ a ∈ l, (f a).isSome = true) :
    ∃ bs, mapOpt f l = some bs ∧ bs.length = l.length ∧
      ∀ b ∈ bs, ∃ a ∈ l, f a = some b := by
  induction l with
  | nil => exact ⟨[], rfl, rfl, by simp⟩
  | cons a as ih =>
    obtain ⟨b, hb⟩ := Option.isSome_iff_exists.mp (h a (List.mem_cons_self a as))
    obtain ⟨bs, hbs, hlen, hmem⟩ := ih (fun x hx => h x (List.mem_cons_of_mem a hx))
    refine ⟨b :: bs, ?_, by simp [hlen], ?_⟩
    · unfold mapOpt; rw [hb, hbs]
    · intro c hc
      rcases List.mem_cons.mp hc with hceq | hcm
      · exact ⟨a, List.mem_cons_self a as, hceq ▸ hb⟩
      · obtain ⟨x, hx, hfx⟩ := hmem c hcm
        exact ⟨x, List.mem_cons_of_mem a hx, hfx⟩

/-- Inversion of one successful loop iteration: the alternative's class id is
an element of other_classes and its confidence the uniform draw from
[0.1, confidence - 0.2). -/
theorem altAt_inv (oc : List Nat) (conf : ℚ) (draws : Nat → Nat × ℚ) (i : Nat)
    (p : Prediction) (h : altAt oc conf draws i = some p) :
    p.class_id ∈ oc ∧ p.confidence = uniform (1/10) (conf - 2/10) (draws i).2 := by
  unfold altAt at h
  cases hc : randChoice oc (draws i).1 with
  | none => simp only [hc] at h; exact Option.noConfusion h
  | some c =>
    simp only [hc] at h
    cases hl : lookupClass c with
    | none => simp only [hl] at h; exact Option.noConfusion h
    | some name =>
      simp only [hl, Option.some.injEq] at h
      subst h
      exact ⟨randChoice_eq_some_mem _ _ _ hc, rfl⟩

/-- Master shape lemma for predict_disease: it always succeeds, the primary
prediction carries the analyzer's class and the uniform(0.7, 0.95) draw, the
alternatives number min 2 (number of other classes), and each alternative's
class id comes from other_classes with a uniform(0.1, confidence - 0.2)
confidence. -/
theorem predict_disease_shape (dec : DecodeResult) (iOther iFail : Nat) (u0 : ℚ)
    (draws : Nat → Nat × ℚ) :
    ∃ name alts,
      predict_disease dec iOther iFail u0 draws =
        .ok ⟨name, uniform (7/10) (19/20) u0, analyze_image dec iOther iFail⟩ alts ∧
      alts.length =
        min 2 (classIds.filter (fun x => x ≠ analyze_image dec iOther iFail)).length ∧
      ∀ a ∈ alts,
        a.class_id ∈ classIds.filter (fun x => x ≠ analyze_image dec iOther iFail) ∧
        ∃ i, a.confidence =
          uniform (1/10) (uniform (7/10) (19/20) u0 - 2/10) (draws i).2 := by
  have hpc : analyze_image dec iOther iFail < 8 := analyze_image_lt dec iOther iFail
  obtain ⟨name, hname⟩ :=
    Option.isSome_iff_exists.mp (lookupClass_isSome _ hpc)
  have hocne : classIds.filter (fun x => x ≠ analyze_image dec iOther iFail) ≠ [] :=
    other_classes_ne_nil _ hpc
  have hall : ∀ i ∈ List.range
      (min 2 (classIds.filter (fun x => x ≠ analyze_image dec iOther iFail)).length),
      (altAt (classIds.filter (fun x => x ≠ analyze_image dec iOther iFail))
        (uniform (7/10) (19/20) u0) draws i).isSome = true := by
    intro i _
    obtain ⟨c, hc, hcm⟩ := randChoice_ne_nil _ (draws i).1 hocne
    have hc8 : c < 8 := classIds_lt c (List.mem_filter.mp hcm).1
    obtain ⟨s, hs⟩ := Option.isSome_iff_exists.mp (lookupClass_isSome c hc8)
    unfold altAt
    simp only [hc, hs, Option.isSome_some]
  obtain ⟨alts, halts, hlen, hmem⟩ := mapOpt_isSome _ _ hall
  refine ⟨name, alts, ?_, by rw [hlen, List.length_range], ?_⟩
  · simp only [predict_disease, hname, halts]
  · intro a ha
    obtain ⟨i, _, hfi⟩ := hmem a ha
    obtain ⟨h1, h2⟩ := altAt_inv _ _ _ _ _ hfi
    exact ⟨h1, i, h2⟩

/-- random.uniform a b lies in [a, b) when a < b and the underlying random()
draw lies in [0, 1). -/
theorem uniform_mem (a b u : ℚ) (hab : a < b) (h0 : 0 ≤ u) (h1 : u < 1) :
    a ≤ uniform a b u ∧ uniform a b u < b := by
  unfold uniform
  constructor
  · nlinarith
  · nlinarith

/-- Claim C9: predict_disease reports success = true on every input: the
analyzer swallows decode failures and is total, every class id it returns is
a key of DISEASE_CLASSES, and other_classes is never empty, so the except
branch that would report success = false is unreachable. -/
theorem C9_predict_always_success (dec : DecodeResult) (iOther iFail : Nat) (u0 : ℚ)
    (draws : Nat → Nat × ℚ) :
    (predict_disease dec iOther iFail u0 draws).success = true := by
  obtain ⟨name, alts, heq, -, -⟩ := predict_disease_shape dec iOther iFail u0 draws
  rw [heq]
  rfl

/-- Claim C2: in every prediction result the primary confidence lies in
[0.70, 0.95), and every alternative's confidence is at least 0.10, strictly
below the primary confidence minus 0.20, and in particular strictly below the
primary confidence (never inverted). -/
theorem C2_confidence_invariant (dec : DecodeResult) (iOther iFail : Nat) (u0 : ℚ)
    (draws : Nat → Nat × ℚ) (p : Prediction) (alts : List Prediction)
    (hu0 : 0 ≤ u0 ∧ u0 < 1) (hd : ∀ i, 0 ≤ (draws i).2 ∧ (draws i).2 < 1)
    (h : predict_disease dec iOther iFail u0 draws = .ok p alts) :
    (7/10 ≤ p.confidence ∧ p.confidence < 19/20) ∧
    ∀ a ∈ alts, 1/10 ≤ a.confidence ∧ a.confidence < p.confidence - 2/10 ∧
      a.confidence < p.confidence := by
  obtain ⟨name, alts2, heq, -, hmem⟩ := predict_disease_shape dec iOther iFail u0 draws
  rw [h] at heq
  injection heq with hp halts
  subst hp
  subst halts
  have hprim : 7/10 ≤ uniform (7/10) (19/20) u0 ∧ uniform (7/10) (19/20) u0 < 19/20 :=
    uniform_mem _ _ _ (by norm_num) hu0.1 hu0.2
  refine ⟨hprim, ?_⟩
  intro a ha
  obtain ⟨-, i, hconf⟩ := hmem a ha
  have halt : 1/10 ≤ a.confidence ∧ a.confidence < uniform (7/10) (19/20) u0 - 2/10 := by
    rw [hconf]
    exact uniform_mem _ _ _ (by nlinarith [hprim.1]) (hd i).1 (hd i).2
  refine ⟨halt.1, halt.2, ?_⟩
  have := halt.2
  dsimp only at this ⊢
  linarith

/-- Witness for C2 at the concrete all-zero draws on a failed decode. -/
theorem C2_witness :
    ((7:ℚ)/10 ≤ (Prediction.mk "Healthy" (uniform (7/10) (19/20) 0) 0).confidence ∧
      (Prediction.mk "Healthy" (uniform (7/10) (19/20) 0) 0).confidence < 19/20) ∧
    ∀ a ∈ [Prediction.mk "Early Blight" (uniform (1/10) (uniform (7/10) (19/20) 0 - 2/10) 0) 1,
           Prediction.mk "Early Blight" (uniform (1/10) (uniform (7/10) (19/20) 0 - 2/10) 0) 1],
      1/10 ≤ a.confidence ∧
      a.confidence < (Prediction.mk "Healthy" (uniform (7/10) (19/20) 0) 0).confidence - 2/10 ∧
      a.confidence < (Prediction.mk "Healthy" (uniform (7/10) (19/20) 0) 0).confidence :=
  C2_confidence_invariant .err 0 0 0 (fun _ => (0, 0)) _ _
    (by norm_num) (fun i => by norm_num) rfl

/-- Claim C10: the alternative-confidence interval [0.10, primary - 0.20) is
never degenerate: its upper bound is strictly above 0.10 (indeed at least
0.50) for every drawable primary confidence. -/
theorem C10_alt_interval_nonempty (dec : DecodeResult) (iOther iFail : Nat) (u0 : ℚ)
    (draws : Nat → Nat × ℚ) (p : Prediction) (alts : List Prediction)
    (h0 : 0 ≤ u0) (h1 : u0 < 1)
    (h : predict_disease dec iOther iFail u0 draws = .ok p alts) :
    1/10 < p.confidence - 2/10 ∧ 1/2 ≤ p.confidence - 2/10 := by
  obtain ⟨name, alts2, heq, -, -⟩ := predict_disease_shape dec iOther iFail u0 draws
  rw [h] at heq
  injection heq with hp halts
  subst hp
  have hprim : 7/10 ≤ uniform (7/10) (19/20) u0 ∧ uniform (7/10) (19/20) u0 < 19/20 :=
    uniform_mem _ _ _ (by norm_num) h0 h1
  dsimp only
  constructor
  · linarith [hprim.1]
  · linarith [hprim.1]

/-- Witness for C10 at the concrete all-zero draws on a failed decode. -/
theorem C10_witness :
    (1:ℚ)/10 < (Prediction.mk "Healthy" (uniform (7/10) (19/20) 0) 0).confidence - 2/10 ∧
    (1:ℚ)/2 ≤ (Prediction.mk "Healthy" (uniform (7/10) (19/20) 0) 0).confidence - 2/10 :=
  C10_alt_interval_nonempty .err 0 0 0 (fun _ => (0, 0)) _
    [Prediction.mk "Early Blight" (uniform (1/10) (uniform (7/10) (19/20) 0 - 2/10) 0) 1,
     Prediction.mk "Early Blight" (uniform (1/10) (uniform (7/10) (19/20) 0 - 2/10) 0) 1]
    (by norm_num) (by norm_num) rfl

/-- Claim C5: every prediction result carries at most 2 alternatives, and
never more alternatives than there are classes other than the primary class. -/
theorem C5_alt_count (dec : DecodeResult) (iOther iFail : Nat) (u0 : ℚ)
    (draws : Nat → Nat × ℚ) (p : Prediction) (alts : List Prediction)
    (h : predict_disease dec iOther iFail u0 draws = .ok p alts) :
    alts.length ≤ 2 ∧
    alts.length ≤ (classIds.filter (fun x => x ≠ p.class_id)).length := by
  obtain ⟨name, alts2, heq, hlen, -⟩ := predict_disease_shape dec iOther iFail u0 draws
  rw [h] at heq
  injection heq with hp halts
  subst hp
  subst halts
  dsimp only
  rw [hlen]
  exact ⟨Nat.min_le_left _ _, Nat.min_le_right _ _⟩

/-- Witness for C5 at the concrete all-zero draws on a failed decode. -/
theorem C5_witness :
    ([Prediction.mk "Early Blight" (uniform (1/10) (uniform (7/10) (19/20) 0 - 2/10) 0) 1,
      Prediction.mk "Early Blight" (uniform (1/10) (uniform (7/10) (19/20) 0 - 2/10) 0) 1].length ≤ 2) ∧
    ([Prediction.mk "Early Blight" (uniform (1/10) (uniform (7/10) (19/20) 0 - 2/10) 0) 1,
      Prediction.mk "Early Blight" (uniform (1/10) (uniform (7/10) (19/20) 0 - 2/10) 0) 1].length ≤
      (classIds.filter (fun x =>
        x ≠ (Prediction.mk "Healthy" (uniform (7/10) (19/20) 0) 0).class_id)).length) :=
  C5_alt_count .err 0 0 0 (fun _ => (0, 0)) _ _ rfl

/-- Claim C6: every alternative's class id differs from the primary class id,
and duplicates among the alternatives are possible: for some draws the two
alternatives carry the same class id. -/
theorem C6_alts_differ_from_primary (dec : DecodeResult) (iOther iFail : Nat) (u0 : ℚ)
    (draws : Nat → Nat × ℚ) (p : Prediction) (alts : List Prediction)
    (h : predict_disease dec iOther iFail u0 draws = .ok p alts) :
    (∀ a ∈ alts, a.class_id ≠ p.class_id) ∧
    ∃ (dec2 : DecodeResult) (iO2 iF2 : Nat) (u2 : ℚ) (draws2 : Nat → Nat × ℚ)
      (p2 a b : Prediction),
      predict_disease dec2 iO2 iF2 u2 draws2 = .ok p2 [a, b] ∧ a.class_id = b.class_id := by
  obtain ⟨name, alts2, heq, -, hmem⟩ := predict_disease_shape dec iOther iFail u0 draws
  rw [h] at heq
  injection heq with hp halts
  subst hp
  subst halts
  constructor
  · intro a ha
    obtain ⟨hfil, -⟩ := hmem a ha
    have := (List.mem_filter.mp hfil).2
    dsimp only
    exact of_decide_eq_true this
  · exact ⟨.err, 0, 0, 0, fun _ => (0, 0),
      Prediction.mk "Healthy" (uniform (7/10) (19/20) 0) 0,
      Prediction.mk "Early Blight" (uniform (1/10) (uniform (7/10) (19/20) 0 - 2/10) 0) 1,
      Prediction.mk "Early Blight" (uniform (1/10) (uniform (7/10) (19/20) 0 - 2/10) 0) 1,
      rfl, rfl⟩

/-- Witness for C6 at the concrete all-zero draws on a failed decode. -/
theorem C6_witness :
    (∀ a ∈ [Prediction.mk "Early Blight" (uniform (1/10) (uniform (7/10) (19/20) 0 - 2/10) 0) 1,
            Prediction.mk "Early Blight" (uniform (1/10) (uniform (7/10) (19/20) 0 - 2/10) 0) 1],
      a.class_id ≠ (Prediction.mk "Healthy" (uniform (7/10) (19/20) 0) 0).class_id) ∧
    ∃ (dec2 : DecodeResult) (iO2 iF2 : Nat) (u2 : ℚ) (draws2 : Nat → Nat × ℚ)
      (p2 a b : Prediction),
      predict_disease dec2 iO2 iF2 u2 draws2 = .ok p2 [a, b] ∧ a.class_id = b.class_id :=
  C6_alts_differ_from_primary .err 0 0 0 (fun _ => (0, 0)) _ _ rfl

/-- Claim C1: on a successfully decoded image the threshold rules apply in
order — green-dominant gives class 0, red-dominant class 1, dark-blue with
strong red class 2 — and otherwise the result is drawn from {0,3,4,5,6,7}:
it is always a member of that list and every member is reached by some draw. -/
theorem C1_classify_policy (red green blue : ℚ) (iOther iFail : Nat) :
    (150 < green ∧ red < 100 → analyze_image (.ok red green blue) iOther iFail = 0) ∧
    (¬(150 < green ∧ red < 100) → (150 < red ∧ green < 100) →
      analyze_image (.ok red green blue) iOther iFail = 1) ∧
    (¬(150 < green ∧ red < 100) → ¬(150 < red ∧ green < 100) → (blue < 50 ∧ 180 < red) →
      analyze_image (.ok red green blue) iOther iFail = 2) ∧
    (¬(150 < green ∧ red < 100) → ¬(150 < red ∧ green < 100) → ¬(blue < 50 ∧ 180 < red) →
      analyze_image (.ok red green blue) iOther iFail ∈ ([0, 3, 4, 5, 6, 7] : List Nat) ∧
      ∀ c ∈ ([0, 3, 4, 5, 6, 7] : List Nat),
        ∃ j, analyze_image (.ok red green blue) j iFail = c) := by
  refine ⟨?_, ?_, ?_, ?_⟩
  · intro hA
    simp only [analyze_image]
    rw [if_pos hA]
  · intro hA hB
    simp only [analyze_image]
    rw [if_neg hA, if_pos hB]
  · intro hA hB hC
    simp only [analyze_image]
    rw [if_neg hA, if_neg hB, if_pos hC]
  · intro hA hB hC
    have hstep : ∀ j, analyze_image (.ok red green blue) j iFail =
        ([0, 3, 4, 5, 6, 7] : List Nat).getD (j % 6) 0 := by
      intro j
      simp only [analyze_image]
      rw [if_neg hA, if_neg hB, if_neg hC]
      rfl
    constructor
    · rw [hstep iOther]
      have hall : ∀ k, k < 6 →
          ([0, 3, 4, 5, 6, 7] : List Nat).getD k 0 ∈ ([0, 3, 4, 5, 6, 7] : List Nat) := by
        decide
      exact hall _ (Nat.mod_lt _ (by norm_num))
    · intro c hc
      fin_cases hc
      · exact ⟨0, by rw [hstep 0]; rfl⟩
      · exact ⟨1, by rw [hstep 1]; rfl⟩
      · exact ⟨2, by rw [hstep 2]; rfl⟩
      · exact ⟨3, by rw [hstep 3]; rfl⟩
      · exact ⟨4, by rw [hstep 4]; rfl⟩
      · exact ⟨5, by rw [hstep 5]; rfl⟩

/-- Witness for C1: one image per rule, plus the fallthrough case with a draw
reaching class 5. -/
theorem C1_witness :
    analyze_image (.ok 50 200 80) 0 0 = 0 ∧
    analyze_image (.ok 200 50 80) 0 0 = 1 ∧
    analyze_image (.ok 190 120 40) 0 0 = 2 ∧
    (analyze_image (.ok 120 120 120) 0 0 ∈ ([0, 3, 4, 5, 6, 7] : List Nat) ∧
     ∀ c ∈ ([0, 3, 4, 5, 6, 7] : List Nat), ∃ j, analyze_image (.ok 120 120 120) j 0 = c) :=
  ⟨(C1_classify_policy 50 200 80 0 0).1 (by norm_num),
   (C1_classify_policy 200 50 80 0 0).2.1 (by norm_num) (by norm_num),
   (C1_classify_policy 190 120 40 0 0).2.2.1 (by norm_num) (by norm_num) (by norm_num),
   (C1_classify_policy 120 120 120 0 0).2.2.2 (by norm_num) (by norm_num) (by norm_num)⟩

/-- Claim C3: when decoding fails the analyzer swallows the error and
returns a class id below 8, and every id below 8 is reached by some draw of
the except handler's randint. -/
theorem C3_decode_failure_swallowed (iOther iFail : Nat) :
    analyze_image .err iOther iFail < 8 ∧
    ∀ c, c < 8 → ∃ j, analyze_image .err iOther j = c := by
  refine ⟨analyze_image_lt .err iOther iFail, ?_⟩
  intro c hc
  refine ⟨c, ?_⟩
  show c % 8 = c
  exact Nat.mod_eq_of_lt hc

/-- Witness for C3 at draw 0, reaching class 5. -/
theorem C3_witness :
    analyze_image .err 0 0 < 8 ∧ ∃ j, analyze_image .err 0 j = 5 :=
  ⟨(C3_decode_failure_swallowed 0 0).1, (C3_decode_failure_swallowed 0 0).2 5 (by norm_num)⟩

/-- Counterexample to claim C4 as stated: two distinct uploads of the same
original filename that arrive within the same wall-clock second (times 0 and
0.5 seconds) receive identical stored filenames, so the later upload
overwrites the earlier one. -/
theorem C4_counterexample :
    (0 : ℚ) ≠ 1/2 ∧ unique_filename 0 "leaf.png" = unique_filename (1/2) "leaf.png" := by
  constructor
  · norm_num
  · unfold unique_filename
    norm_num

/-- Claim C4 amended: stored filenames are unique across uploads of the same
(or any) original filename whose timestamps fall in distinct wall-clock
seconds; the timestamp prefix has one-second granularity, so only uploads
within the same second can collide. -/
theorem C4_unique_per_second (t1 t2 : ℚ) (name1 name2 : String)
    (h : ⌊t1⌋ ≠ ⌊t2⌋) : unique_filename t1 name1 ≠ unique_filename t2 name2 := by
  intro heq
  exact h (congrArg Prod.fst heq)

/-- Witness for the amended C4: uploads at seconds 0 and 1 get distinct
stored names. -/
theorem C4_witness :
    unique_filename 0 "leaf.png" ≠ unique_filename 1 "leaf.png" :=
  C4_unique_per_second 0 1 "leaf.png" "leaf.png" (by norm_num)

/-- Claim C7: a filename passes validation iff it is non-empty, contains a
dot, and the lowercased substring after the last dot is an allowed extension;
and a filename failing validation makes the handler answer with an error
redirect and write no file. -/
theorem C7_validation_iff (filename : String) :
    (allowed_file filename = true ↔
      (filename ≠ "" ∧ filename.data.contains '.' = true ∧
        ALLOWED_EXTENSIONS.contains (lowerStr (extAfterLastDot filename)) = true)) ∧
    (allowed_file filename = false →
      ∀ (saveFails : Bool) (now : ℚ) (dec : DecodeResult) (iOther iFail : Nat) (u0 : ℚ)
        (draws : Nat → Nat × ℚ),
        (∃ msg, (upload_file ⟨.POST, true, filename⟩ saveFails now dec iOther iFail u0
          draws).response = .redirectWithError msg) ∧
        (upload_file ⟨.POST, true, filename⟩ saveFails now dec iOther iFail u0
          draws).fileSaved = false) := by
  constructor
  · constructor
    · intro h
      obtain ⟨hc, he⟩ := (Bool.and_eq_true _ _).mp h
      refine ⟨?_, hc, he⟩
      intro hemp
      subst hemp
      exact absurd hc (by decide)
    · rintro ⟨-, hc, he⟩
      unfold allowed_file
      rw [hc, he]
      rfl
  · intro hfalse saveFails now dec iOther iFail u0 draws
    by_cases hemp : filename = ""
    · subst hemp
      exact ⟨⟨"Please select a file", rfl⟩, rfl⟩
    · simp only [upload_file]
      rw [if_neg (by simp : ¬(true = false)), if_neg hemp,
        if_neg (by simp [hfalse] : ¬(allowed_file filename = true))]
      exact ⟨⟨"Invalid file type. Please use JPG, PNG, or JPEG images.", rfl⟩, rfl⟩

/-- Witness for C7: "leaf.PNG" passes validation; "virus.exe" is rejected
with an error redirect. -/
theorem C7_witness :
    allowed_file "leaf.PNG" = true ∧
    ∃ msg, (upload_file ⟨.POST, true, "virus.exe"⟩ false 0 .err 0 0 0
      (fun _ => (0, 0))).response = .redirectWithError msg :=
  ⟨(C7_validation_iff "leaf.PNG").1.mpr ⟨by decide, by decide, by decide⟩,
   ((C7_validation_iff "virus.exe").2 (by decide) false 0 .err 0 0 0 (fun _ => (0, 0))).1⟩

/-- Claim C8: a POST without a file part or with an empty filename goes
straight to the error response: no file is saved and predict_disease is
never invoked. -/
theorem C8_missing_file_short_circuits (req : UploadRequest) (saveFails : Bool) (now : ℚ)
    (dec : DecodeResult) (iOther iFail : Nat) (u0 : ℚ) (draws : Nat → Nat × ℚ)
    (hm : req.method = .POST) (h : req.hasFilePart = false ∨ req.filename = "") :
    (∃ msg, (upload_file req saveFails now dec iOther iFail u0 draws).response =
      .redirectWithError msg) ∧
    (upload_file req saveFails now dec iOther iFail u0 draws).fileSaved = false ∧
    (upload_file req saveFails now dec iOther iFail u0 draws).predictionAttempted = false := by
  obtain ⟨method, hasFile, fname⟩ := req
  dsimp only at hm h
  subst hm
  rcases h with h | h
  · subst h
    exact ⟨⟨"Please select a file first", rfl⟩, rfl, rfl⟩
  · subst h
    cases hasFile
    · exact ⟨⟨"Please select a file first", rfl⟩, rfl, rfl⟩
    · exact ⟨⟨"Please select a file", rfl⟩, rfl, rfl⟩

/-- Witness for C8: a POST with no file part is answered with an error
redirect, nothing saved, no prediction. -/
theorem C8_witness :
    (∃ msg, (upload_file ⟨.POST, false, "leaf.png"⟩ false 0 .err 0 0 0
      (fun _ => (0, 0))).response = .redirectWithError msg) ∧
    (upload_file ⟨.POST, false, "leaf.png"⟩ false 0 .err 0 0 0
      (fun _ => (0, 0))).fileSaved = false ∧
    (upload_file ⟨.POST, false, "leaf.png"⟩ false 0 .err 0 0 0
      (fun _ => (0, 0))).predictionAttempted = false :=
  C8_missing_file_short_circuits ⟨.POST, false, "leaf.png"⟩ false 0 .err 0 0 0
    (fun _ => (0, 0)) rfl (Or.inl rfl)

end CropDisease
